import Mathlib

/-!
Verification of the twitter-data backend: a shallow embedding of the ORM
entities (`models.ts`) and of the controller handlers
(`tweet.controller.ts`, `user.controller.ts`, `interaction.controller.ts`)
as pure Lean functions over an explicit store, together with theorems about
feed ordering and pagination, like/follow uniqueness, error handling, and
frame conditions.

Conventions of the embedding:
 - database rows live in lists inside a `Store`; `PrimaryGeneratedColumn`
   is modelled by a store-global counter `nextId`;
 - `CURRENT_TIMESTAMP` defaults are modelled by the store clock `now`
   (a `Nat`); timestamps only ever get compared, never interpreted;
 - nullable columns are `Option`; non-nullable text columns are `String`
   (in particular `Tweet.imageUrl : String` mirrors the non-nullable
   `image_url` column);
 - each handler takes the store and returns `(result, store)`; a `TsoaResponse`
   error return is `HResult.err status message`, a normal return is `HResult.ok`;
 - external collaborators (object storage upload, the Postgres full-text
   matcher behind `to_tsvector/plainto_tsquery`) are parameters of the
   handlers that use them;
 - `ORDER BY created_at DESC` is modelled by a stable merge sort on the
   descending comparison of `createdAt`; TypeORM `skip`/`take` become
   `List.drop`/`List.take`.
-/

namespace TwitterData

/-- User entity (`users` table in `models.ts`): `bio` and `avatar_url` are
nullable, the rest non-nullable. -/
structure User where
  id : Nat
  username : String
  email : String
  passwordHash : String
  bio : Option String
  avatarUrl : Option String
  createdAt : Nat
deriving Repr, DecidableEq

/-- Tweet entity (`tweets` table): `image_url` is a non-nullable text column,
`tweet_text` is nullable. -/
structure Tweet where
  id : Nat
  imageUrl : String
  tweetText : Option String
  createdAt : Nat
  userId : Nat
deriving Repr, DecidableEq

/-- Comment entity (`comments` table). -/
structure Comment where
  id : Nat
  content : String
  createdAt : Nat
  userId : Nat
  tweetId : Nat
deriving Repr, DecidableEq

/-- Like entity (`likes` table): only an id, a timestamp and the two foreign
keys; no uniqueness constraint on the `(user_id, tweet_id)` pair. -/
structure Like where
  id : Nat
  createdAt : Nat
  userId : Nat
  tweetId : Nat
deriving Repr, DecidableEq

/-- Follow entity (`follows` table): `follower_id` and `followed_id` are plain
non-nullable columns with no check constraint, so nothing at the data layer
prevents `followerId = followedId` or duplicate pairs. -/
structure Follow where
  id : Nat
  followerId : Nat
  followedId : Nat
  createdAt : Nat
deriving Repr, DecidableEq

/-- The database state: one list per table, the generated-id counter and the
clock used for `CURRENT_TIMESTAMP` defaults. -/
structure Store where
  users : List User
  tweets : List Tweet
  comments : List Comment
  likes : List Like
  follows : List Follow
  nextId : Nat
  now : Nat
deriving Repr, DecidableEq

/-- Result of a handler: a success payload or an error response with an HTTP
status code and a message (a `TsoaResponse` return in the source). -/
inductive HResult (α : Type) where
  | ok : α → HResult α
  | err : Nat → String → HResult α
deriving Repr, DecidableEq

/-- Whether a handler result is a success. -/
def HResult.isOk {α : Type} : HResult α → Bool
  | .ok _ => true
  | .err _ _ => false

/-- The error status of a handler result, if any. -/
def HResult.errStatus {α : Type} : HResult α → Option Nat
  | .ok _ => none
  | .err s _ => some s

/-- The success payload of a handler result, with a fallback default. -/
def HResult.okD {α : Type} (d : α) : HResult α → α
  | .ok a => a
  | .err _ _ => d

/-- Repository lookup `findOneBy({ id })` on the users table. -/
def findUser (st : Store) (id : Nat) : Option User :=
  st.users.find? (fun u => u.id == id)

/-- Repository lookup `findOneBy({ id })` on the tweets table. -/
def findTweet (st : Store) (id : Nat) : Option Tweet :=
  st.tweets.find? (fun t => t.id == id)

/-- JS `x || "unknown"` applied to the loaded user relation's username:
falls back when the relation is null or the username is the empty string. -/
def usernameOf (u? : Option User) : String :=
  match u? with
  | some u => if u.username == "" then "unknown" else u.username
  | none => "unknown"

/-- JS `x || null` applied to the loaded user relation's avatar URL. -/
def avatarOf (u? : Option User) : Option String :=
  match u? with
  | some u =>
      match u.avatarUrl with
      | some a => if a == "" then none else some a
      | none => none
  | none => none

/-- JS `s || null` on an optional request field: absent and empty both
become null. -/
def jsOrNull (s? : Option String) : Option String :=
  match s? with
  | some s => if s == "" then none else some s
  | none => none

/-- Descending comparison on tweet creation time, the boolean order used to
model `order: { createdAt: "DESC" }`. -/
def tweetLeDesc (a b : Tweet) : Bool :=
  b.createdAt ≤ a.createdAt

/-- Tweets sorted newest first (`ORDER BY created_at DESC`). -/
def sortTweetsDesc (ts : List Tweet) : List Tweet :=
  ts.mergeSort tweetLeDesc

/-- Descending comparison on comment creation time. -/
def commentLeDesc (a b : Comment) : Bool :=
  b.createdAt ≤ a.createdAt

/-- Comments sorted newest first. -/
def sortCommentsDesc (cs : List Comment) : List Comment :=
  cs.mergeSort commentLeDesc

/-- Whether the (optional) current user has a Like row on the given tweet:
the `hasLiked` computation of the tweet endpoints. An absent JWT yields an
empty likes query and hence `false`. -/
def hasLikedBy (st : Store) (cu : Option Nat) (tweetId : Nat) : Bool :=
  match cu with
  | none => false
  | some uid => st.likes.any (fun l => l.tweetId == tweetId && l.userId == uid)

/-- Response shape `TweetResponse`, one per tweet row, with the user relation
flattened in. -/
structure TweetResponse where
  id : Nat
  imageUrl : String
  tweetText : Option String
  createdAt : Nat
  userId : Nat
  username : String
  avatarUrl : Option String
  hasLiked : Bool
deriving Repr, DecidableEq

/-- Builds the `TweetResponse` record for one tweet row, exactly as the map
in `getFeedTweets` / `searchTweets` / `getTweetById` does. -/
def tweetResponseOf (st : Store) (cu : Option Nat) (t : Tweet) : TweetResponse :=
  { id := t.id
    imageUrl := t.imageUrl
    tweetText := t.tweetText
    createdAt := t.createdAt
    userId := t.userId
    username := usernameOf (findUser st t.userId)
    avatarUrl := avatarOf (findUser st t.userId)
    hasLiked := hasLikedBy st cu t.id }

/-- Request body of `createTweet`; `tweetText` is optional at the JS level
(the handler maps a missing or empty text to null). -/
structure CreateTweetInput where
  imageBase64 : String
  imageFileType : String
  tweetText : Option String
deriving Repr, DecidableEq

/-- JS word character, the `\w` class of the data-URL header regex. -/
def isWordChar (c : Char) : Bool :=
  c.isAlphanum || c == '_'

/-- JS `String.prototype.startsWith`, implemented on the character list so
that it is structurally recursive (and hence evaluable inside proofs). -/
def strStartsWith (s pre : String) : Bool :=
  pre.data.isPrefixOf s.data

/-- Strips a leading `data:image\/\w+;base64,` header when the string has one
(the regex match in `createTweet`), else returns the string unchanged. -/
def stripDataUrl (s : String) : String :=
  let cs := s.data
  let hdr := "data:image/".data
  if hdr.isPrefixOf cs then
    let rest := cs.drop hdr.length
    let word := rest.takeWhile isWordChar
    let tl := rest.drop word.length
    if word ≠ [] ∧ ";base64,".data.isPrefixOf tl then
      ⟨tl.drop (";base64,".data.length)⟩
    else s
  else s

/-- Handler `TweetController.createTweet`. The object-storage upload is the
parameter `upload` (base64 data and file type to object URL; `none` models a
failed upload, surfaced as the 500 branch). -/
def createTweet (upload : String → String → Option String) (st : Store)
    (cu : Nat) (body : CreateTweetInput) : HResult TweetResponse × Store :=
  if body.imageBase64 == "" || !(strStartsWith body.imageFileType ("image/")) then
    (.err 400 ("imageBase64 and a valid imageFileType are required."), st)
  else
    match upload (stripDataUrl body.imageBase64) body.imageFileType with
    | none => (.err 500 ("Failed to create tweet."), st)
    | some url =>
        let t : Tweet :=
          { id := st.nextId
            imageUrl := url
            tweetText := jsOrNull body.tweetText
            createdAt := st.now
            userId := cu }
        let st2 := { st with tweets := st.tweets ++ [t], nextId := st.nextId + 1 }
        (.ok { id := t.id
               imageUrl := t.imageUrl
               tweetText := t.tweetText
               createdAt := t.createdAt
               userId := t.userId
               username := usernameOf (findUser st cu)
               avatarUrl := avatarOf (findUser st cu)
               hasLiked := false }, st2)

/-- Handler `TweetController.getFeedTweets`: all tweets ordered newest first,
paginated by `skip offset` then `take limit` with defaults 10 and 0, tweets
whose user relation failed to load filtered out, then mapped to responses.
Omitted query parameters are `none`. -/
def getFeedTweets (st : Store) (cu : Option Nat)
    (limitQ offsetQ : Option Nat) : List TweetResponse × Store :=
  let lim := limitQ.getD 10
  let off := offsetQ.getD 0
  let page := ((sortTweetsDesc st.tweets).drop off).take lim
  ((page.filter (fun t => (findUser st t.userId).isSome)).map (tweetResponseOf st cu), st)

/-- JS `String.prototype.trim`, implemented on the character list: drop
whitespace from the front, then (via reversal) from the back. -/
def strTrim (s : String) : String :=
  ⟨(((s.data.dropWhile Char.isWhitespace).reverse.dropWhile Char.isWhitespace).reverse)⟩

/-- Word accumulator behind `jsSplitWs`: walks the characters, collecting the
current word in `acc` (reversed) and emitting it at each whitespace run. -/
def wordsAux : List Char → List Char → List String
  | [], acc => if acc = [] then [] else [⟨acc.reverse⟩]
  | c :: cs, acc =>
      if c.isWhitespace then
        if acc = [] then wordsAux cs [] else ⟨acc.reverse⟩ :: wordsAux cs []
      else wordsAux cs (c :: acc)

/-- Words of a string after JS `.trim().split(/\s+/)`: the regex treats a run
of whitespace as one separator, so on a trimmed string this is exactly the
list of maximal whitespace-free words. -/
def jsSplitWs (s : String) : List String :=
  wordsAux (strTrim s).data []

/-- Search term construction of `searchTweets`: trim, split on whitespace
runs, join with the and-operator. -/
def searchTermOf (query : String) : String :=
  String.intercalate (" & ") (jsSplitWs query)

/-- Handler `TweetController.searchTweets`. The Postgres full-text matcher
`to_tsvector(tweet_text) @@ plainto_tsquery(term)` is the parameter `m`
(term, nullable tweet text → match). -/
def searchTweets (m : String → Option String → Bool) (st : Store)
    (cu : Option Nat) (query : String)
    (limitQ offsetQ : Option Nat) : HResult (List TweetResponse) × Store :=
  if strTrim query == "" then
    (.err 400 ("Search query cannot be empty"), st)
  else
    let lim := limitQ.getD 10
    let off := offsetQ.getD 0
    let hits := sortTweetsDesc (st.tweets.filter (fun t => m (searchTermOf query) t.tweetText))
    (.ok (((hits.drop off).take lim).map (tweetResponseOf st cu)), st)

/-- Handler `TweetController.getTweetById`. -/
def getTweetById (st : Store) (cu : Option Nat) (tweetId : Nat) :
    HResult TweetResponse × Store :=
  match findTweet st tweetId with
  | none => (.err 404 ("Tweet not found"), st)
  | some t => (.ok (tweetResponseOf st cu t), st)

/-- Response shape `UserProfileResponse`. -/
structure UserProfileResponse where
  id : Nat
  username : String
  bio : Option String
  avatarUrl : Option String
  createdAt : Nat
  followers : Nat
  following : Nat
deriving Repr, DecidableEq

/-- Handler `UserController.followUser`: self-follow check, target existence
check, duplicate check, then insert. -/
def followUser (st : Store) (cu : Nat) (target : Nat) : HResult String × Store :=
  if cu == target then
    (.err 400 ("You cannot follow yourself."), st)
  else
    match findUser st target with
    | none => (.err 404 ("User to follow not found."), st)
    | some _ =>
        match st.follows.find? (fun f => f.followerId == cu && f.followedId == target) with
        | some _ => (.err 409 ("You are already following this user."), st)
        | none =>
            let f : Follow :=
              { id := st.nextId, followerId := cu, followedId := target, createdAt := st.now }
            (.ok ("Successfully followed user " ++ toString target),
             { st with follows := st.follows ++ [f], nextId := st.nextId + 1 })

/-- Handler `UserController.unfollowUser`: deletes all Follow rows matching
the (follower, followed) pair; 404 when nothing matched. -/
def unfollowUser (st : Store) (cu : Nat) (target : Nat) : HResult String × Store :=
  if (st.follows.filter (fun f => !(f.followerId == cu && f.followedId == target))).length
      == st.follows.length then
    (.err 404 ("Follow relationship not found."), st)
  else
    (.ok ("Successfully unfollowed user " ++ toString target),
     { st with
        follows := st.follows.filter (fun f => !(f.followerId == cu && f.followedId == target)) })

/-- Handler `UserController.getUserProfile`: the profile of an existing user,
with `followers` the count of Follow rows pointing at the user and
`following` the count of Follow rows leaving the user. -/
def getUserProfile (st : Store) (userId : Nat) : HResult UserProfileResponse × Store :=
  match findUser st userId with
  | none => (.err 404 ("User not found"), st)
  | some u =>
      (.ok { id := u.id
             username := u.username
             bio := u.bio
             avatarUrl := u.avatarUrl
             createdAt := u.createdAt
             followers := (st.follows.filter (fun f => f.followedId == userId)).length
             following := (st.follows.filter (fun f => f.followerId == userId)).length }, st)

/-- Profile record built by the follower/following listing endpoints: the
counts are hard-coded to 0 there. -/
def zeroCountProfileOf (u : User) : UserProfileResponse :=
  { id := u.id
    username := u.username
    bio := u.bio
    avatarUrl := u.avatarUrl
    createdAt := u.createdAt
    followers := 0
    following := 0 }

/-- Handler `UserController.getUserFollowers`: Follow rows pointing at the
user; 404 when there are none (no user-existence check); rows whose follower
relation failed to load are filtered out, the rest mapped with zero counts. -/
def getUserFollowers (st : Store) (userId : Nat) :
    HResult (List UserProfileResponse) × Store :=
  if (st.follows.filter (fun f => f.followedId == userId)).length == 0 then
    (.err 404 ("No followers found for this user."), st)
  else
    (.ok ((st.follows.filter (fun f => f.followedId == userId)).filterMap
        (fun f => (findUser st f.followerId).map zeroCountProfileOf)), st)

/-- Handler `UserController.getUserFollowing`: Follow rows leaving the user;
otherwise symmetric to `getUserFollowers`. -/
def getUserFollowing (st : Store) (userId : Nat) :
    HResult (List UserProfileResponse) × Store :=
  if (st.follows.filter (fun f => f.followerId == userId)).length == 0 then
    (.err 404 ("No following found for this user."), st)
  else
    (.ok ((st.follows.filter (fun f => f.followerId == userId)).filterMap
        (fun f => (findUser st f.followedId).map zeroCountProfileOf)), st)

/-- Handler `InteractionController.likeTweet`: tweet existence check, user
load (a missing user is a thrown error, surfaced as a 500), then an
unconditional insert of a Like row: no duplicate check of any kind. -/
def likeTweet (st : Store) (cu : Nat) (tweetId : Nat) : HResult String × Store :=
  match findTweet st tweetId with
  | none => (.err 404 ("Tweet not found."), st)
  | some _ =>
      match findUser st cu with
      | none => (.err 500 ("User not found"), st)
      | some u =>
          let l : Like := { id := st.nextId, createdAt := st.now, userId := u.id, tweetId := tweetId }
          (.ok ("Tweet liked successfully"),
           { st with likes := st.likes ++ [l], nextId := st.nextId + 1 })

/-- Handler `InteractionController.unlikeTweet`: deletes all Like rows
matching the (tweet, user) pair; always succeeds. -/
def unlikeTweet (st : Store) (cu : Nat) (tweetId : Nat) : HResult String × Store :=
  (.ok ("Tweet unliked successfully"),
   { st with likes := st.likes.filter (fun l => !(l.tweetId == tweetId && l.userId == cu)) })

/-- Response shape `CommentResponse`. -/
structure CommentResponse where
  id : Nat
  text : String
  userId : Nat
  tweetId : Nat
  username : String
  avatarUrl : Option String
  createdAt : Nat
deriving Repr, DecidableEq

/-- Builds the `CommentResponse` record for one comment row. -/
def commentResponseOf (st : Store) (c : Comment) : CommentResponse :=
  { id := c.id
    text := c.content
    userId := c.userId
    tweetId := c.tweetId
    username := usernameOf (findUser st c.userId)
    avatarUrl := avatarOf (findUser st c.userId)
    createdAt := c.createdAt }

/-- Handler `InteractionController.createComment`. -/
def createComment (st : Store) (cu : Nat) (tweetId : Nat) (text : String) :
    HResult CommentResponse × Store :=
  match findTweet st tweetId with
  | none => (.err 404 ("Tweet not found."), st)
  | some _ =>
      match findUser st cu with
      | none => (.err 500 ("User not found"), st)
      | some u =>
          let c : Comment :=
            { id := st.nextId, content := text, createdAt := st.now, userId := u.id, tweetId := tweetId }
          (.ok { id := c.id
                 text := c.content
                 userId := c.userId
                 tweetId := c.tweetId
                 username := u.username
                 avatarUrl := u.avatarUrl
                 createdAt := c.createdAt },
           { st with comments := st.comments ++ [c], nextId := st.nextId + 1 })

/-- Handler `InteractionController.getComments`: tweet existence check, then
the tweet's comments newest first under the same take/skip pagination as the
feed. -/
def getComments (st : Store) (tweetId : Nat) (limitQ offsetQ : Option Nat) :
    HResult (List CommentResponse) × Store :=
  match findTweet st tweetId with
  | none => (.err 404 ("Tweet not found."), st)
  | some _ =>
      let lim := limitQ.getD 10
      let off := offsetQ.getD 0
      let sorted := sortCommentsDesc (st.comments.filter (fun c => c.tweetId == tweetId))
      (.ok (((sorted.drop off).take lim).map (commentResponseOf st)), st)

/-- Number of Like rows a given user has on a given tweet. -/
def likeCount (st : Store) (uid tid : Nat) : Nat :=
  (st.likes.filter (fun l => l.userId == uid && l.tweetId == tid)).length

/-- Default profile record, used to project success payloads. -/
def dfltProfile : UserProfileResponse :=
  { id := 0, username := "", bio := none, avatarUrl := none, createdAt := 0,
    followers := 0, following := 0 }

/-- Default tweet response record, used to project success payloads. -/
def dfltTweetResponse : TweetResponse :=
  { id := 0, imageUrl := "", tweetText := none, createdAt := 0, userId := 0,
    username := "", avatarUrl := none, hasLiked := false }

/-! ## Helper lemmas about the descending sort -/

theorem tweetLeDesc_trans (a b c : Tweet) :
    tweetLeDesc a b = true → tweetLeDesc b c = true → tweetLeDesc a c = true := by
  simp only [tweetLeDesc, decide_eq_true_eq]
  omega

theorem tweetLeDesc_total (a b : Tweet) :
    (tweetLeDesc a b || tweetLeDesc b a) = true := by
  simp only [tweetLeDesc, Bool.or_eq_true, decide_eq_true_eq]
  omega

/-- The modelled `ORDER BY created_at DESC` really sorts tweets newest
first. -/
theorem sortTweetsDesc_pairwise (ts : List Tweet) :
    List.Pairwise (fun a b => b.createdAt ≤ a.createdAt) (sortTweetsDesc ts) := by
  have h := List.sorted_mergeSort tweetLeDesc_trans tweetLeDesc_total ts
  exact h.imp (fun hab => by simpa [tweetLeDesc] using hab)

/-- Sorting permutes the tweet list. -/
theorem sortTweetsDesc_perm (ts : List Tweet) :
    (sortTweetsDesc ts).Perm ts :=
  List.mergeSort_perm ts tweetLeDesc

/-! ## Claims -/

/-- C1: for every feed request, `getFeedTweets` returns tweets in
reverse-chronological order (creation time descending, newest first), at most
`limit` of them, drawn from the sorted order after its first `offset` tweets
are skipped; omitted query parameters default to `limit = 10`, `offset = 0`,
and the store is read, not written. -/
theorem getFeedTweets_feed_spec (st : Store) (cu : Option Nat)
    (limitQ offsetQ : Option Nat) :
    List.Pairwise (fun (a b : TweetResponse) => b.createdAt ≤ a.createdAt)
      (getFeedTweets st cu limitQ offsetQ).1 ∧
    (getFeedTweets st cu limitQ offsetQ).1.length ≤ limitQ.getD 10 ∧
    getFeedTweets st cu none none = getFeedTweets st cu (some 10) (some 0) ∧
    (∃ l : List Tweet,
      l.Sublist ((sortTweetsDesc st.tweets).drop (offsetQ.getD 0)) ∧
      (getFeedTweets st cu limitQ offsetQ).1 = l.map (tweetResponseOf st cu)) := by
  refine ⟨?_, ?_, rfl, ?_⟩
  · have hsub :
        ((((sortTweetsDesc st.tweets).drop (offsetQ.getD 0)).take (limitQ.getD 10)).filter
            (fun t => (findUser st t.userId).isSome)).Sublist (sortTweetsDesc st.tweets) :=
      (List.filter_sublist _).trans ((List.take_sublist _ _).trans (List.drop_sublist _ _))
    have hp := (sortTweetsDesc_pairwise st.tweets).sublist hsub
    simp only [getFeedTweets]
    rw [List.pairwise_map]
    exact hp.imp (fun h => h)
  · simp only [getFeedTweets, List.length_map]
    exact le_trans (List.length_filter_le _ _) (List.length_take_le _ _)
  · exact ⟨(((sortTweetsDesc st.tweets).drop (offsetQ.getD 0)).take (limitQ.getD 10)).filter
        (fun t => (findUser st t.userId).isSome),
      (List.filter_sublist _).trans (List.take_sublist _ _), rfl⟩

/-! ## Concrete fixtures used by witnesses -/

/-- Sample user with id 1. -/
def wUserA : User :=
  { id := 1, username := "alice", email := "alice@example.org", passwordHash := "h1",
    bio := none, avatarUrl := none, createdAt := 0 }

/-- Sample user with id 2. -/
def wUserB : User :=
  { id := 2, username := "bob", email := "bob@example.org", passwordHash := "h2",
    bio := none, avatarUrl := none, createdAt := 0 }

/-- Sample tweet with id 3, owned by user 1. -/
def wTweetA : Tweet :=
  { id := 3, imageUrl := "http://img/3", tweetText := some ("hello world"), createdAt := 1,
    userId := 1 }

/-- Sample Like row of user 1 on tweet 3. -/
def wLikeA : Like :=
  { id := 4, createdAt := 1, userId := 1, tweetId := 3 }

/-- Sample Follow row from user 1 to user 2. -/
def wFollowAB : Follow :=
  { id := 5, followerId := 1, followedId := 2, createdAt := 1 }

/-- Sample store: two users, one tweet, one like of user 1 on tweet 3. -/
def wStoreLiked : Store :=
  { users := [wUserA, wUserB], tweets := [wTweetA], comments := [], likes := [wLikeA],
    follows := [], nextId := 6, now := 9 }

/-- Sample store: two users, one tweet, no interactions. -/
def wStorePlain : Store :=
  { users := [wUserA, wUserB], tweets := [wTweetA], comments := [], likes := [],
    follows := [], nextId := 6, now := 9 }

/-- Sample store: two users and an existing follow from user 1 to user 2. -/
def wStoreFollowed : Store :=
  { users := [wUserA, wUserB], tweets := [wTweetA], comments := [], likes := [],
    follows := [wFollowAB], nextId := 6, now := 9 }

/-- Sample object-storage upload that always succeeds. -/
def wUpload (data ft : String) : Option String :=
  some ("http://storage/" ++ ft ++ "/" ++ data)

/-- Sample createTweet body with a valid image and non-empty text. -/
def wGoodBody : CreateTweetInput :=
  { imageBase64 := "QUJD", imageFileType := "image/png", tweetText := some ("hello") }

/-- C2: the Like entity and the likeTweet handler enforce no per-(user, tweet)
uniqueness: there is a state in which a user already has one Like row on an
existing tweet, yet a second likeTweet call by the same user on the same tweet
succeeds and leaves two Like rows for the pair. -/
theorem likeTweet_no_uniqueness :
    ∃ (st : Store) (uid tid : Nat),
      likeCount st uid tid = 1 ∧
      (likeTweet st uid tid).1.isOk = true ∧
      likeCount (likeTweet st uid tid).2 uid tid = 2 := by
  refine ⟨wStoreLiked, 1, 3, ?_, ?_, ?_⟩ <;> decide

/-- C3: a self-follow is rejected in the handler, not at the data layer: for
every store and user id, `followUser` with the target equal to the requester
answers status 400 and leaves the store (in particular the Follow table)
unchanged, while the Follow entity itself admits a row with
`followerId = followedId`. -/
theorem followUser_self_rejected (st : Store) (uid : Nat) :
    followUser st uid uid = (.err 400 ("You cannot follow yourself."), st) ∧
    ∃ f : Follow, f.followerId = f.followedId := by
  refine ⟨?_, ⟨{ id := 0, followerId := 7, followedId := 7, createdAt := 0 }, rfl⟩⟩
  simp [followUser]

/-- C4: a tweet's image is mandatory: `createTweet` answers status 400 and
leaves the store unchanged when the body's `imageBase64` is empty or its
`imageFileType` does not start with `image/`; and on every successful call
the stored tweet carries the (non-nullable, `String`-typed) object URL the
upload produced as its `imageUrl`. -/
theorem createTweet_image_mandatory (upload : String → String → Option String)
    (st : Store) (cu : Nat) (body : CreateTweetInput) :
    (body.imageBase64 = "" ∨ strStartsWith body.imageFileType ("image/") = false →
      createTweet upload st cu body
        = (.err 400 ("imageBase64 and a valid imageFileType are required."), st)) ∧
    ((createTweet upload st cu body).1.isOk = true →
      ∃ url : String,
        upload (stripDataUrl body.imageBase64) body.imageFileType = some url ∧
        (createTweet upload st cu body).2.tweets
          = st.tweets ++ [{ id := st.nextId, imageUrl := url,
                            tweetText := jsOrNull body.tweetText, createdAt := st.now,
                            userId := cu }] ∧
        ((createTweet upload st cu body).1.okD dfltTweetResponse).imageUrl = url) := by
  constructor
  · intro h
    have hc : (body.imageBase64 == "" || !(strStartsWith body.imageFileType ("image/"))) = true := by
      rcases h with h | h <;> simp [h]
    simp only [createTweet, hc, if_true]
  · intro hok
    unfold createTweet at hok ⊢
    split at hok
    · simp [HResult.isOk] at hok
    · rename_i hcond
      rw [if_neg hcond]
      rcases hu : upload (stripDataUrl body.imageBase64) body.imageFileType with _ | url
      · rw [hu] at hok; simp [HResult.isOk] at hok
      · exact ⟨url, by simp [hu], rfl, rfl⟩

/-- C4 witness: the empty-image input is rejected with the store untouched,
and a concrete successful call stores the uploaded URL. -/
theorem createTweet_image_mandatory_witness :
    createTweet wUpload wStorePlain 1
        { imageBase64 := "", imageFileType := "image/png", tweetText := none }
      = (.err 400 ("imageBase64 and a valid imageFileType are required."), wStorePlain) ∧
    (∃ url : String,
        wUpload (stripDataUrl wGoodBody.imageBase64) wGoodBody.imageFileType = some url ∧
        (createTweet wUpload wStorePlain 1 wGoodBody).2.tweets
          = wStorePlain.tweets ++ [{ id := wStorePlain.nextId, imageUrl := url,
                                     tweetText := jsOrNull wGoodBody.tweetText,
                                     createdAt := wStorePlain.now, userId := 1 }] ∧
        ((createTweet wUpload wStorePlain 1 wGoodBody).1.okD dfltTweetResponse).imageUrl
          = url) :=
  ⟨(createTweet_image_mandatory wUpload wStorePlain 1 _).1 (Or.inl rfl),
   (createTweet_image_mandatory wUpload wStorePlain 1 wGoodBody).2 (by decide)⟩

/-- C7: tweet text is optional: on every successful `createTweet` call the
stored tweet's text is null when the request's `tweetText` was absent or the
empty string, and exactly the request's text when it was non-empty. -/
theorem createTweet_text_optional (upload : String → String → Option String)
    (st : Store) (cu : Nat) (body : CreateTweetInput)
    (hok : (createTweet upload st cu body).1.isOk = true) :
    ∃ t : Tweet,
      (createTweet upload st cu body).2.tweets = st.tweets ++ [t] ∧
      ((body.tweetText = none ∨ body.tweetText = some ("")) → t.tweetText = none) ∧
      (∀ s : String, s ≠ "" → body.tweetText = some s → t.tweetText = some s) := by
  unfold createTweet at hok ⊢
  split at hok
  · simp [HResult.isOk] at hok
  · rename_i hcond
    rw [if_neg hcond]
    rcases hu : upload (stripDataUrl body.imageBase64) body.imageFileType with _ | url
    · rw [hu] at hok; simp [HResult.isOk] at hok
    · refine ⟨_, rfl, ?_, ?_⟩
      · rintro (h | h) <;> simp [h, jsOrNull]
      · intro s hs h
        simp [h, jsOrNull, hs]

/-- C7 witness: a concrete successful call with non-empty text stores exactly
that text (and the null case is forced by the conclusion's implications). -/
theorem createTweet_text_optional_witness :
    ∃ t : Tweet,
      (createTweet wUpload wStorePlain 1 wGoodBody).2.tweets = wStorePlain.tweets ++ [t] ∧
      ((wGoodBody.tweetText = none ∨ wGoodBody.tweetText = some ("")) → t.tweetText = none) ∧
      (∀ s : String, s ≠ "" → wGoodBody.tweetText = some s → t.tweetText = some s) :=
  createTweet_text_optional wUpload wStorePlain 1 wGoodBody (by decide)

/-- C5: follows are directed: a successful follow from user `a` to user `b`
raises the `followers` count that `getUserProfile` reports for `b` and the
`following` count it reports for `a` by one each, while leaving `b`'s
`following` count and `a`'s `followers` count unchanged. -/
theorem followUser_directed_counts (st : Store) (a b : Nat)
    (hne : a ≠ b)
    (ha : (findUser st a).isSome = true)
    (hb : (findUser st b).isSome = true)
    (hnew : st.follows.find? (fun f => f.followerId == a && f.followedId == b) = none) :
    (followUser st a b).1.isOk = true ∧
    ((getUserProfile (followUser st a b).2 b).1.okD dfltProfile).followers
      = ((getUserProfile st b).1.okD dfltProfile).followers + 1 ∧
    ((getUserProfile (followUser st a b).2 b).1.okD dfltProfile).following
      = ((getUserProfile st b).1.okD dfltProfile).following ∧
    ((getUserProfile (followUser st a b).2 a).1.okD dfltProfile).following
      = ((getUserProfile st a).1.okD dfltProfile).following + 1 ∧
    ((getUserProfile (followUser st a b).2 a).1.okD dfltProfile).followers
      = ((getUserProfile st a).1.okD dfltProfile).followers := by
  obtain ⟨ua, hua⟩ := Option.isSome_iff_exists.mp ha
  obtain ⟨ub, hub⟩ := Option.isSome_iff_exists.mp hb
  have hne' : (a == b) = false := beq_eq_false_iff_ne.mpr hne
  have hne2 : (b == a) = false := beq_eq_false_iff_ne.mpr (Ne.symm hne)
  unfold followUser
  simp only [hne', Bool.false_eq_true, if_false, hub, hnew]
  unfold findUser at hua hub
  unfold getUserProfile findUser
  simp only [hua, hub, HResult.isOk, HResult.okD, List.filter_append,
    List.length_append, List.filter_cons, List.filter_nil, hne', hne2,
    beq_self_eq_true, if_true, Bool.false_eq_true, if_false, List.length_cons,
    List.length_nil]
  simp

/-- C5 witness: following user 2 from user 1 in the two-user store moves the
four counts exactly as claimed. -/
theorem followUser_directed_counts_witness :
    (followUser wStorePlain 1 2).1.isOk = true ∧
    ((getUserProfile (followUser wStorePlain 1 2).2 2).1.okD dfltProfile).followers
      = ((getUserProfile wStorePlain 2).1.okD dfltProfile).followers + 1 ∧
    ((getUserProfile (followUser wStorePlain 1 2).2 2).1.okD dfltProfile).following
      = ((getUserProfile wStorePlain 2).1.okD dfltProfile).following ∧
    ((getUserProfile (followUser wStorePlain 1 2).2 1).1.okD dfltProfile).following
      = ((getUserProfile wStorePlain 1).1.okD dfltProfile).following + 1 ∧
    ((getUserProfile (followUser wStorePlain 1 2).2 1).1.okD dfltProfile).followers
      = ((getUserProfile wStorePlain 1).1.okD dfltProfile).followers :=
  followUser_directed_counts wStorePlain 1 2 (by decide) (by decide) (by decide) (by decide)

/-- C8: duplicate follows are rejected in the handler: when a Follow row from
the requester to the (distinct, existing) target already exists, `followUser`
answers status 409 and leaves the store unchanged. -/
theorem followUser_duplicate_conflict (st : Store) (a b : Nat)
    (hne : a ≠ b)
    (hb : (findUser st b).isSome = true)
    (hdup : ∃ f ∈ st.follows, f.followerId = a ∧ f.followedId = b) :
    followUser st a b = (.err 409 ("You are already following this user."), st) := by
  obtain ⟨ub, hub⟩ := Option.isSome_iff_exists.mp hb
  have hne' : (a == b) = false := beq_eq_false_iff_ne.mpr hne
  obtain ⟨f, hf, hf1, hf2⟩ := hdup
  have hfind : (st.follows.find? (fun f => f.followerId == a && f.followedId == b)).isSome
      = true :=
    List.find?_isSome.mpr ⟨f, hf, by simp [hf1, hf2]⟩
  obtain ⟨g, hg⟩ := Option.isSome_iff_exists.mp hfind
  unfold followUser
  simp [hne', hub, hg]

/-- C8 witness: in the store that already holds the follow from user 1 to
user 2, a second follow request is answered 409 with the store untouched. -/
theorem followUser_duplicate_conflict_witness :
    followUser wStoreFollowed 1 2
      = (.err 409 ("You are already following this user."), wStoreFollowed) :=
  followUser_duplicate_conflict wStoreFollowed 1 2 (by decide) (by decide)
    ⟨wFollowAB, by decide, rfl, rfl⟩

/-- C6: entities persist until explicitly deleted and there is no derived
state: the read-only endpoints `getFeedTweets`, `getTweetById`,
`getUserProfile` and `getComments` leave the store exactly as it was; every
creating handler only appends to its own table and leaves every other table
untouched; and the only removals are the explicit deletes, `unlikeTweet`,
which removes exactly the matching Like rows, and `unfollowUser`, which
removes exactly the matching Follow rows. -/
theorem handlers_persistence_frame :
    (∀ st cu lq oq, (getFeedTweets st cu lq oq).2 = st) ∧
    (∀ st cu tid, (getTweetById st cu tid).2 = st) ∧
    (∀ st uid, (getUserProfile st uid).2 = st) ∧
    (∀ st tid lq oq, (getComments st tid lq oq).2 = st) ∧
    (∀ upload st cu body,
      (∃ created, (createTweet upload st cu body).2.tweets = st.tweets ++ created) ∧
      (createTweet upload st cu body).2.users = st.users ∧
      (createTweet upload st cu body).2.comments = st.comments ∧
      (createTweet upload st cu body).2.likes = st.likes ∧
      (createTweet upload st cu body).2.follows = st.follows) ∧
    (∀ st cu tid,
      (∃ created, (likeTweet st cu tid).2.likes = st.likes ++ created) ∧
      (likeTweet st cu tid).2.users = st.users ∧
      (likeTweet st cu tid).2.tweets = st.tweets ∧
      (likeTweet st cu tid).2.comments = st.comments ∧
      (likeTweet st cu tid).2.follows = st.follows) ∧
    (∀ st cu target,
      (∃ created, (followUser st cu target).2.follows = st.follows ++ created) ∧
      (followUser st cu target).2.users = st.users ∧
      (followUser st cu target).2.tweets = st.tweets ∧
      (followUser st cu target).2.comments = st.comments ∧
      (followUser st cu target).2.likes = st.likes) ∧
    (∀ st cu tid text,
      (∃ created, (createComment st cu tid text).2.comments = st.comments ++ created) ∧
      (createComment st cu tid text).2.users = st.users ∧
      (createComment st cu tid text).2.tweets = st.tweets ∧
      (createComment st cu tid text).2.likes = st.likes ∧
      (createComment st cu tid text).2.follows = st.follows) ∧
    (∀ st cu tid,
      (unlikeTweet st cu tid).2.likes
        = st.likes.filter (fun l => !(l.tweetId == tid && l.userId == cu)) ∧
      (unlikeTweet st cu tid).2.users = st.users ∧
      (unlikeTweet st cu tid).2.tweets = st.tweets ∧
      (unlikeTweet st cu tid).2.comments = st.comments ∧
      (unlikeTweet st cu tid).2.follows = st.follows) ∧
    (∀ st cu target,
      (unfollowUser st cu target).2.follows
        = st.follows.filter (fun f => !(f.followerId == cu && f.followedId == target)) ∧
      (unfollowUser st cu target).2.users = st.users ∧
      (unfollowUser st cu target).2.tweets = st.tweets ∧
      (unfollowUser st cu target).2.comments = st.comments ∧
      (unfollowUser st cu target).2.likes = st.likes) := by
  refine ⟨?_, ?_, ?_, ?_, ?_, ?_, ?_, ?_, ?_, ?_⟩
  · intro st cu lq oq; rfl
  · intro st cu tid
    unfold getTweetById
    split <;> rfl
  · intro st uid
    unfold getUserProfile
    split <;> rfl
  · intro st tid lq oq
    unfold getComments
    split <;> rfl
  · intro upload st cu body
    unfold createTweet
    split
    · exact ⟨⟨[], by simp⟩, rfl, rfl, rfl, rfl⟩
    · split
      · exact ⟨⟨[], by simp⟩, rfl, rfl, rfl, rfl⟩
      · exact ⟨⟨_, rfl⟩, rfl, rfl, rfl, rfl⟩
  · intro st cu tid
    unfold likeTweet
    split
    · exact ⟨⟨[], by simp⟩, rfl, rfl, rfl, rfl⟩
    · split
      · exact ⟨⟨[], by simp⟩, rfl, rfl, rfl, rfl⟩
      · exact ⟨⟨_, rfl⟩, rfl, rfl, rfl, rfl⟩
  · intro st cu target
    unfold followUser
    split
    · exact ⟨⟨[], by simp⟩, rfl, rfl, rfl, rfl⟩
    · split
      · exact ⟨⟨[], by simp⟩, rfl, rfl, rfl, rfl⟩
      · split
        · exact ⟨⟨[], by simp⟩, rfl, rfl, rfl, rfl⟩
        · exact ⟨⟨_, rfl⟩, rfl, rfl, rfl, rfl⟩
  · intro st cu tid text
    unfold createComment
    split
    · exact ⟨⟨[], by simp⟩, rfl, rfl, rfl, rfl⟩
    · split
      · exact ⟨⟨[], by simp⟩, rfl, rfl, rfl, rfl⟩
      · exact ⟨⟨_, rfl⟩, rfl, rfl, rfl, rfl⟩
  · intro st cu tid
    exact ⟨rfl, rfl, rfl, rfl, rfl⟩
  · intro st cu target
    unfold unfollowUser
    split
    · rename_i h
      have hlen :
          (st.follows.filter (fun f => !(f.followerId == cu && f.followedId == target))).length
            = st.follows.length := by simpa using h
      have heq := List.Sublist.eq_of_length (List.filter_sublist _) hlen
      exact ⟨heq.symm, rfl, rfl, rfl, rfl⟩
    · exact ⟨rfl, rfl, rfl, rfl, rfl⟩

/-- C9: the follower and followee listing endpoints answer 404 exactly when
the respective Follow-row list is empty, with no user-existence check
anywhere (so a nonexistent user id gets the very same none-found 404), and
when the list is non-empty every returned profile carries `followers` and
`following` counts of 0. -/
theorem followers_following_listing_spec (st : Store) (uid : Nat) :
    (st.follows.filter (fun f => f.followedId == uid) = [] →
      getUserFollowers st uid = (.err 404 ("No followers found for this user."), st)) ∧
    (st.follows.filter (fun f => f.followedId == uid) ≠ [] →
      ∃ ps, (getUserFollowers st uid).1 = .ok ps ∧
        ∀ p ∈ ps, p.followers = 0 ∧ p.following = 0) ∧
    (st.follows.filter (fun f => f.followerId == uid) = [] →
      getUserFollowing st uid = (.err 404 ("No following found for this user."), st)) ∧
    (st.follows.filter (fun f => f.followerId == uid) ≠ [] →
      ∃ ps, (getUserFollowing st uid).1 = .ok ps ∧
        ∀ p ∈ ps, p.followers = 0 ∧ p.following = 0) := by
  refine ⟨?_, ?_, ?_, ?_⟩
  · intro h
    unfold getUserFollowers
    simp [h]
  · intro h
    have hc : ((st.follows.filter (fun f => f.followedId == uid)).length == 0) = false := by
      simp [List.length_eq_zero, h]
    unfold getUserFollowers
    simp only [hc, Bool.false_eq_true, if_false]
    refine ⟨_, rfl, ?_⟩
    intro p hp
    obtain ⟨f, hf, hmap⟩ := List.mem_filterMap.mp hp
    obtain ⟨u, hu, hup⟩ := Option.map_eq_some'.mp hmap
    rw [← hup]
    exact ⟨rfl, rfl⟩
  · intro h
    unfold getUserFollowing
    simp [h]
  · intro h
    have hc : ((st.follows.filter (fun f => f.followerId == uid)).length == 0) = false := by
      simp [List.length_eq_zero, h]
    unfold getUserFollowing
    simp only [hc, Bool.false_eq_true, if_false]
    refine ⟨_, rfl, ?_⟩
    intro p hp
    obtain ⟨f, hf, hmap⟩ := List.mem_filterMap.mp hp
    obtain ⟨u, hu, hup⟩ := Option.map_eq_some'.mp hmap
    rw [← hup]
    exact ⟨rfl, rfl⟩

/-- C9 witness: user 3 has no followers in the sample store (and indeed does
not even exist) and gets the none-found 404; user 2 has one follower and the
returned profiles all carry zero counts. -/
theorem followers_following_listing_spec_witness :
    getUserFollowers wStoreFollowed 3
      = (.err 404 ("No followers found for this user."), wStoreFollowed) ∧
    (∃ ps, (getUserFollowers wStoreFollowed 2).1 = .ok ps ∧
      ∀ p ∈ ps, p.followers = 0 ∧ p.following = 0) :=
  ⟨(followers_following_listing_spec wStoreFollowed 3).1 (by decide),
   (followers_following_listing_spec wStoreFollowed 2).2.1 (by decide)⟩

/-- Whitespace characters can be dropped from the front of a list without
changing whether every element is whitespace. -/
theorem dropWhile_forall_iff {α : Type} (p : α → Bool) (l : List α) :
    (∀ x ∈ l.dropWhile p, p x = true) ↔ (∀ x ∈ l, p x = true) := by
  constructor
  · intro h x hx
    rcases List.mem_append.mp ((List.takeWhile_append_dropWhile p l).symm ▸ hx) with h1 | h2
    · exact List.mem_takeWhile_imp h1
    · exact h x h2
  · intro h x hx
    exact h x ((List.dropWhile_sublist p).subset hx)

/-- The modelled JS trim yields the empty string exactly on strings that are
empty or all whitespace. -/
theorem strTrim_eq_empty_iff (s : String) :
    strTrim s = "" ↔ s.data.all (fun c => c.isWhitespace) = true := by
  have hmk : ∀ l : List Char, String.mk l = "" ↔ l = [] := by
    intro l
    constructor
    · intro h
      exact congrArg String.data h
    · intro h
      rw [h]
  unfold strTrim
  rw [hmk, List.reverse_eq_nil_iff, List.dropWhile_eq_nil_iff, List.all_eq_true]
  constructor
  · intro h
    exact (dropWhile_forall_iff _ _).mp (fun x hx => h x (List.mem_reverse.mpr hx))
  · intro h x hx
    exact (dropWhile_forall_iff _ _).mpr h x (List.mem_reverse.mp hx)

/-- C10: `searchTweets` answers 400 exactly when the query is empty or all
whitespace; otherwise it queries the full-text matcher with the trimmed query
whose whitespace runs are joined by the and-operator (`searchTermOf`), and
returns matching tweets newest first under the same limit (default 10) and
offset (default 0) pagination as the feed. -/
theorem searchTweets_validation_spec (m : String → Option String → Bool)
    (st : Store) (cu : Option Nat) (query : String) (lq oq : Option Nat) :
    ((searchTweets m st cu query lq oq).1 = .err 400 ("Search query cannot be empty")
        ↔ query.data.all (fun c => c.isWhitespace) = true) ∧
    (strTrim query ≠ "" →
      ∃ page : List Tweet,
        page.Sublist
          ((sortTweetsDesc (st.tweets.filter (fun t => m (searchTermOf query) t.tweetText))).drop
            (oq.getD 0)) ∧
        page.length ≤ lq.getD 10 ∧
        List.Pairwise (fun a b => b.createdAt ≤ a.createdAt) page ∧
        (searchTweets m st cu query lq oq).1 = .ok (page.map (tweetResponseOf st cu))) ∧
    searchTweets m st cu query none none = searchTweets m st cu query (some 10) (some 0) := by
  refine ⟨?_, ?_, rfl⟩
  · by_cases h : strTrim query = ""
    · have he : (searchTweets m st cu query lq oq).1
          = .err 400 ("Search query cannot be empty") := by
        unfold searchTweets
        simp [h]
      rw [he]
      simp [(strTrim_eq_empty_iff query).mp h]
    · have hc : (strTrim query == "") = false := beq_eq_false_iff_ne.mpr h
      have he : (searchTweets m st cu query lq oq).1
          = .ok ((((sortTweetsDesc
              (st.tweets.filter (fun t => m (searchTermOf query) t.tweetText))).drop
                (oq.getD 0)).take (lq.getD 10)).map (tweetResponseOf st cu)) := by
        unfold searchTweets
        simp only [hc, Bool.false_eq_true, if_false]
      rw [he]
      constructor
      · intro hcontra
        exact HResult.noConfusion hcontra
      · intro hall
        exact absurd ((strTrim_eq_empty_iff query).mpr hall) h
  · intro h
    have hc : (strTrim query == "") = false := beq_eq_false_iff_ne.mpr h
    refine ⟨((sortTweetsDesc
        (st.tweets.filter (fun t => m (searchTermOf query) t.tweetText))).drop
          (oq.getD 0)).take (lq.getD 10), ?_, ?_, ?_, ?_⟩
    · exact List.take_sublist _ _
    · exact List.length_take_le _ _
    · exact (sortTweetsDesc_pairwise _).sublist
        ((List.take_sublist _ _).trans (List.drop_sublist _ _))
    · unfold searchTweets
      simp only [hc, Bool.false_eq_true, if_false]

/-- C10 witness: an all-whitespace query is answered 400, and a two-word
query on the sample store is answered with a sorted, bounded page of
matches. -/
theorem searchTweets_validation_spec_witness :
    ((searchTweets (fun _ _ => true) wStorePlain none ("   ") none none).1
      = .err 400 ("Search query cannot be empty")) ∧
    (∃ page : List Tweet,
      page.Sublist ((sortTweetsDesc (wStorePlain.tweets.filter
        (fun t => (fun _ _ => true) (searchTermOf ("hello world")) t.tweetText))).drop
          ((none : Option Nat).getD 0)) ∧
      page.length ≤ (none : Option Nat).getD 10 ∧
      List.Pairwise (fun a b => b.createdAt ≤ a.createdAt) page ∧
      (searchTweets (fun _ _ => true) wStorePlain none ("hello world") none none).1
        = .ok (page.map (tweetResponseOf wStorePlain none))) :=
  ⟨((searchTweets_validation_spec (fun _ _ => true) wStorePlain none ("   ") none none).1).mpr
      (by decide),
   (searchTweets_validation_spec (fun _ _ => true) wStorePlain none ("hello world")
      none none).2.1 (by decide)⟩

end TwitterData
